import Mathlib

/-!
Verification of the `aqar999` real-estate listing backend.

The development shallowly embeds the persistence layer
(`server/storage.ts`, class `MongoStorage`), the Zod validation schemas
(`shared/schema.ts`) and the relevant Express route handlers
(`registerRoutes`).  A MongoDB collection is modelled as a Lean list of
documents in insertion order; driver operations (`find` + `sort`,
`findOne`, `updateOne`, `findOneAndUpdate`) are modelled by executable
Lean functions on those lists, following the documented semantics of the
MongoDB Node driver:

* `new ObjectId(id)` throws for a string that is not a 24-character hex
  string; operations that construct an `ObjectId` from caller input are
  therefore embedded as `Except`-returning functions, `Except.error`
  standing for the thrown exception.
* a range clause such as `{ $gte: n }` does not match a document in
  which the field is missing;
* `updateOne` reports `modifiedCount = 0` when the matched document
  already holds the written values, so `modifiedCount > 0` is "the
  document actually changed";
* `.sort({ createdAt: -1 })` orders newest-first; `createdAt` values are
  modelled as natural-number timestamps.

JavaScript numbers are modelled as `Int` (no claim in scope depends on
fractional values) and JavaScript truthiness tests on strings and
numbers (`if (search.city)`, `if (search.bedrooms)`) are embedded
explicitly: the empty string and the number `0` are falsy.
-/

namespace Aqar

/-- `new ObjectId(id)` succeeds exactly when `id` is a 24-character hex
string (BSON driver contract); otherwise the constructor throws. -/
def isHexChar (c : Char) : Bool :=
  (('0' ≤ c) && (c ≤ '9')) || (('a' ≤ c) && (c ≤ 'f')) || (('A' ≤ c) && (c ≤ 'F'))

/-- Syntactic validity of a MongoDB ObjectId string. -/
def isValidObjectId (s : String) : Bool :=
  s.length == 24 && s.data.all isHexChar

/-- A stored `Property` document (`shared/schema.ts`, interface
`Property`).  `_id` holds the canonical (lower-case hex) ObjectId
string; optional interface fields are `Option`s; `createdAt` is the
server-assigned timestamp. -/
structure Property where
  _id : String
  title : String
  description : String
  type : String
  price : Int
  currency : String
  isRental : Bool
  rentalPeriod : Option String
  city : String
  area : Option String
  neighborhood : String
  address : String
  bedrooms : Option Int
  bathrooms : Option Int
  size : Int
  features : Option (List String)
  images : List String
  status : String
  createdAt : Nat
  propertyCode : String
  latitude : Option Int
  longitude : Option Int
deriving DecidableEq, Repr

/-- A parsed search filter (`shared/schema.ts`, `propertySearchSchema`):
every field optional. -/
structure PropertySearch where
  city : Option String := none
  area : Option String := none
  neighborhood : Option String := none
  type : Option String := none
  minPrice : Option Int := none
  maxPrice : Option Int := none
  minSize : Option Int := none
  maxSize : Option Int := none
  bedrooms : Option Int := none
  isRental : Option Bool := none
deriving DecidableEq, Repr

/-- `if (search.city) filter.city = search.city` (storage.ts:262):
the clause is added only when the value is present and truthy
(non-empty); it is then an exact-match clause. -/
def strFieldClause (v : Option String) (field : String) : Bool :=
  match v with
  | some c => if c != "" then field == c else true
  | none => true

/-- The `$gte`/`$lte` range clause built from the two optional bounds
(storage.ts:268-272 for price, 274-278 for size); presence is tested
with `!== undefined`, so `0` is a live bound.  The queried field is
always present on stored properties. -/
def rangeClause (lo hi : Option Int) (field : Int) : Bool :=
  (match lo with
   | some m => m ≤ field
   | none => true) &&
  (match hi with
   | some m => field ≤ m
   | none => true)

/-- `if (search.bedrooms) filter.bedrooms = { $gte: search.bedrooms }`
(storage.ts:280-282): truthiness test, so `bedrooms = 0` adds no
clause; the `$gte` clause does not match documents missing the
`bedrooms` field. -/
def bedroomsClause (v : Option Int) (field : Option Int) : Bool :=
  match v with
  | some n =>
    if n != 0 then
      match field with
      | some b => n ≤ b
      | none => false
    else true
  | none => true

/-- `if (search.isRental !== undefined) filter.isRental = search.isRental`
(storage.ts:266). -/
def isRentalClause (v : Option Bool) (field : Bool) : Bool :=
  match v with
  | some b => field == b
  | none => true

/-- The conjunction of the clauses `MongoStorage.searchProperties`
(storage.ts:257-284) puts into its `filter` object, evaluated on one
document. -/
def matchesSearch (s : PropertySearch) (p : Property) : Bool :=
  strFieldClause s.city p.city &&
  strFieldClause s.area (p.area.getD "") &&
  strFieldClause s.neighborhood p.neighborhood &&
  strFieldClause s.type p.type &&
  isRentalClause s.isRental p.isRental &&
  rangeClause s.minPrice s.maxPrice p.price &&
  rangeClause s.minSize s.maxSize p.size &&
  bedroomsClause s.bedrooms p.bedrooms

/-- Insert one property into a list already sorted by `createdAt`
descending, keeping it sorted. -/
def insertDesc (p : Property) : List Property → List Property
  | [] => [p]
  | q :: qs => if q.createdAt ≤ p.createdAt then p :: q :: qs else q :: insertDesc p qs

/-- Model of the driver's `.sort({ createdAt: -1 })`: newest first. -/
def sortByCreatedAtDesc : List Property → List Property
  | [] => []
  | p :: ps => insertDesc p (sortByCreatedAtDesc ps)

/-- `MongoStorage.searchProperties` (storage.ts:257-285): filter the
collection by the constructed predicate, newest first. -/
def searchProperties (db : List Property) (s : PropertySearch) : List Property :=
  sortByCreatedAtDesc (db.filter (matchesSearch s))

/-- `MongoStorage.getAllProperties` (storage.ts:214-217): the whole
collection, newest first. -/
def getAllProperties (db : List Property) : List Property :=
  sortByCreatedAtDesc db

/-- `MongoStorage.getProperty` (storage.ts:219-223):
`new ObjectId(id)` throws on a malformed id (modelled as
`Except.error`); otherwise `findOne` returns the first matching
document or an absence marker (`none` standing for `undefined`). -/
def getProperty (db : List Property) (id : String) : Except String (Option Property) :=
  if isValidObjectId id then
    Except.ok (db.find? (fun p => p._id == id))
  else
    Except.error "BSONError: input must be a 24 character hex string"

/-- Elements of `insertDesc p l` are `p` and the elements of `l`. -/
theorem mem_insertDesc {q p : Property} {l : List Property} :
    q ∈ insertDesc p l ↔ q = p ∨ q ∈ l := by
  induction l with
  | nil => simp [insertDesc]
  | cons r rs ih =>
    by_cases h : r.createdAt ≤ p.createdAt
    · simp [insertDesc, h]
    · simp [insertDesc, h, ih]
      tauto

/-- `insertDesc` produces a permutation of consing. -/
theorem perm_insertDesc (p : Property) (l : List Property) :
    List.Perm (insertDesc p l) (p :: l) := by
  induction l with
  | nil => simp [insertDesc]
  | cons r rs ih =>
    by_cases h : r.createdAt ≤ p.createdAt
    · simp [insertDesc, h]
    · simp only [insertDesc, h, if_false]
      exact (ih.cons r).trans (List.Perm.swap p r rs)

/-- Sorting is a permutation of the input. -/
theorem perm_sortByCreatedAtDesc (l : List Property) :
    List.Perm (sortByCreatedAtDesc l) l := by
  induction l with
  | nil => simp [sortByCreatedAtDesc]
  | cons p ps ih =>
    exact (perm_insertDesc p (sortByCreatedAtDesc ps)).trans (ih.cons p)

/-- The newest-first order on documents. -/
def NewestFirst (a b : Property) : Prop := b.createdAt ≤ a.createdAt

/-- `insertDesc` preserves the newest-first order. -/
theorem pairwise_insertDesc {p : Property} {l : List Property}
    (h : l.Pairwise NewestFirst) : (insertDesc p l).Pairwise NewestFirst := by
  induction l with
  | nil => simp [insertDesc, NewestFirst]
  | cons r rs ih =>
    rcases List.pairwise_cons.mp h with ⟨hr, hrs⟩
    by_cases hc : r.createdAt ≤ p.createdAt
    · simp only [insertDesc, hc, if_true]
      refine List.pairwise_cons.mpr ⟨?_, h⟩
      intro x hx
      rcases List.mem_cons.mp hx with rfl | hx
      · exact hc
      · exact le_trans (hr x hx) hc
    · simp only [insertDesc, hc, if_false]
      refine List.pairwise_cons.mpr ⟨?_, ih hrs⟩
      intro x hx
      rcases mem_insertDesc.mp hx with hxp | hxl
      · subst hxp
        exact le_of_lt (Nat.lt_of_not_le hc)
      · exact hr x hxl

/-- The sorted collection is in newest-first order. -/
theorem pairwise_sortByCreatedAtDesc (l : List Property) :
    (sortByCreatedAtDesc l).Pairwise NewestFirst := by
  induction l with
  | nil => simp [sortByCreatedAtDesc]
  | cons p ps ih => exact pairwise_insertDesc ih

/-- Membership in a search result is membership in the collection plus
satisfaction of the constructed predicate. -/
theorem mem_searchProperties {db : List Property} {s : PropertySearch} {p : Property} :
    p ∈ searchProperties db s ↔ p ∈ db ∧ matchesSearch s p = true := by
  unfold searchProperties
  rw [(perm_sortByCreatedAtDesc _).mem_iff, List.mem_filter]

/-- Raw JSON body for property creation/update: every key may be
absent.  (Type mismatches are out of scope; the claims in scope concern
presence, defaults and the declared minimum constraints.) -/
structure RawProperty where
  title : Option String := none
  description : Option String := none
  type : Option String := none
  price : Option Int := none
  currency : Option String := none
  isRental : Option Bool := none
  rentalPeriod : Option String := none
  city : Option String := none
  area : Option String := none
  neighborhood : Option String := none
  address : Option String := none
  bedrooms : Option Int := none
  bathrooms : Option Int := none
  size : Option Int := none
  features : Option (List String) := none
  images : Option (List String) := none
  status : Option String := none
  propertyCode : Option String := none
  latitude : Option Int := none
  longitude : Option Int := none
deriving DecidableEq, Repr

/-- The normalized value of `insertPropertySchema.parse`
(`shared/schema.ts:69-90`): required fields are plain, optionals stay
optional, defaulted fields are plain. -/
structure InsertProperty where
  title : String
  description : String
  type : String
  price : Int
  currency : String
  isRental : Bool
  rentalPeriod : Option String
  city : String
  area : Option String
  neighborhood : String
  address : String
  bedrooms : Option Int
  bathrooms : Option Int
  size : Int
  features : Option (List String)
  images : List String
  status : String
  propertyCode : String
  latitude : Option Int
  longitude : Option Int
deriving DecidableEq, Repr

/-- `z.string().min(1, msg)`: required, and non-empty with message
`msg`; an absent key fails with Zod's default `Required` message. -/
def reqStrMin1 (v : Option String) (msg : String) : Except String String :=
  match v with
  | none => Except.error "Required"
  | some s => if 1 ≤ s.length then Except.ok s else Except.error msg

/-- `z.number().min(0, msg)`. -/
def reqNumMin0 (v : Option Int) (msg : String) : Except String Int :=
  match v with
  | none => Except.error "Required"
  | some n => if 0 ≤ n then Except.ok n else Except.error msg

/-- `z.array(z.string()).min(1, msg)`. -/
def reqListMin1 (v : Option (List String)) (msg : String) : Except String (List String) :=
  match v with
  | none => Except.error "Required"
  | some l => if 1 ≤ l.length then Except.ok l else Except.error msg

/-- A bare `z.string()`: required, no further constraint (this is the
declared type of `propertyCode`, schema.ts:87). -/
def reqStr (v : Option String) : Except String String :=
  match v with
  | none => Except.error "Required"
  | some s => Except.ok s

/-- `insertPropertySchema.parse` (schema.ts:69-90): checks fields in
declaration order, applies the declared defaults (`currency = "SAR"`,
`isRental = false`, `status = "available"`), and returns the normalized
value; the first failing field's message is the reported error. -/
def parseInsertProperty (r : RawProperty) : Except String InsertProperty := do
  let title ← reqStrMin1 r.title "العنوان مطلوب"
  let description ← reqStrMin1 r.description "الوصف مطلوب"
  let ty ← reqStrMin1 r.type "نوع العقار مطلوب"
  let price ← reqNumMin0 r.price "السعر يجب أن يكون رقم موجب"
  let currency := r.currency.getD "SAR"
  let isRental := r.isRental.getD false
  let city ← reqStrMin1 r.city "المدينة مطلوبة"
  let neighborhood ← reqStrMin1 r.neighborhood "الحي مطلوب"
  let address ← reqStrMin1 r.address "العنوان مطلوب"
  let size ← reqNumMin0 r.size "المساحة مطلوبة"
  let images ← reqListMin1 r.images "صورة واحدة على الأقل مطلوبة"
  let status := r.status.getD "available"
  let propertyCode ← reqStr r.propertyCode
  Except.ok
    { title := title, description := description, type := ty, price := price,
      currency := currency, isRental := isRental, rentalPeriod := r.rentalPeriod,
      city := city, area := r.area, neighborhood := neighborhood, address := address,
      bedrooms := r.bedrooms, bathrooms := r.bathrooms, size := size,
      features := r.features, images := images, status := status,
      propertyCode := propertyCode, latitude := r.latitude, longitude := r.longitude }

/-- Raw JSON body for user creation. -/
structure RawUser where
  username : Option String := none
  password : Option String := none
  name : Option String := none
  role : Option String := none
  email : Option String := none
  phone : Option String := none
deriving DecidableEq, Repr

/-- The normalized value of `insertUserSchema.parse`. -/
structure InsertUser where
  username : String
  password : String
  name : String
  role : String
  email : String
  phone : Option String
deriving DecidableEq, Repr

/-- Coarse model of Zod's `.email()` check (external library code); no
claim in scope depends on its exact regex, only on a check running. -/
def zodEmailOk (s : String) : Bool :=
  s.data.contains '@' && s.data.head? != some '@' && s.data.getLast? != some '@'

/-- `z.string().email(msg)`: required, then the email check. -/
def reqEmail (v : Option String) (msg : String) : Except String String :=
  match v with
  | none => Except.error "Required"
  | some e => if zodEmailOk e then Except.ok e else Except.error msg

/-- `z.string().min(n, msg)` for a general minimum length. -/
def reqStrMin (n : Nat) (v : Option String) (msg : String) : Except String String :=
  match v with
  | none => Except.error "Required"
  | some s => if n ≤ s.length then Except.ok s else Except.error msg

/-- `insertUserSchema.parse` (schema.ts:92-99): declaration-order
checks, default `role = "user"`. -/
def parseInsertUser (r : RawUser) : Except String InsertUser := do
  let username ← reqStrMin 3 r.username "اسم المستخدم يجب أن يكون 3 أحرف على الأقل"
  let password ← reqStrMin 6 r.password "كلمة المرور يجب أن تكون 6 أحرف على الأقل"
  let name ← reqStrMin 1 r.name "الاسم مطلوب"
  let role := r.role.getD "user"
  let email ← reqEmail r.email "البريد الإلكتروني غير صحيح"
  Except.ok
    { username := username, password := password, name := name, role := role,
      email := email, phone := r.phone }

/-- `SA-${Math.floor(10000 + Math.random() * 90000)}` (routes file,
line 200): `Math.random()` is modelled by an arbitrary natural seed
reduced mod 90000, which gives exactly the reachable values
`10000..99999`. -/
def genPropertyCode (rand : Nat) : String :=
  "SA-" ++ toString (10000 + rand % 90000)

/-- The `POST /api/properties` handler body (routes file, lines
193-214) up to storage: parse the body against `insertPropertySchema`
(a Zod failure is answered with 400 and never reaches the code
generator), then replace a falsy — i.e. empty — `propertyCode` with a
generated one. -/
def postPropertyHandler (r : RawProperty) (rand : Nat) : Except String InsertProperty :=
  match parseInsertProperty r with
  | Except.error e => Except.error e
  | Except.ok d =>
    if d.propertyCode == "" then
      Except.ok { d with propertyCode := genPropertyCode rand }
    else
      Except.ok d

/-- Destructing a successful `Except` bind. -/
theorem except_bind_ok {α β : Type} {x : Except String α} {f : α → Except String β}
    {v : β} : x.bind f = Except.ok v ↔ ∃ a, x = Except.ok a ∧ f a = Except.ok v := by
  cases x with
  | error e => simp [Except.bind]
  | ok a => simp [Except.bind]

/-- A stored `Testimonial` document (schema.ts, interface
`Testimonial`). -/
structure Testimonial where
  _id : String
  name : String
  location : String
  message : String
  rating : Int
  createdAt : Nat
  isApproved : Bool
deriving DecidableEq, Repr

/-- The normalized value of `insertTestimonialSchema.parse`
(schema.ts:109-114): note there is no `isApproved` key — Zod strips
unknown keys, so caller input cannot carry an approval flag. -/
structure InsertTestimonial where
  name : String
  location : String
  message : String
  rating : Int
deriving DecidableEq, Repr

/-- `MongoStorage.createTestimonial` (storage.ts:328-337): spreads the
validated input and then writes `createdAt` and `isApproved: false`
(the spread is overridden), inserts, and returns the document with its
new id. -/
def createTestimonial (db : List Testimonial) (t : InsertTestimonial)
    (newId : String) (now : Nat) : List Testimonial × Testimonial :=
  let nt : Testimonial :=
    { _id := newId, name := t.name, location := t.location, message := t.message,
      rating := t.rating, createdAt := now, isApproved := false }
  (db ++ [nt], nt)

/-- `MongoStorage.getApprovedTestimonials` (storage.ts:339-342):
`find({ isApproved: true })`, no sort. -/
def getApprovedTestimonials (db : List Testimonial) : List Testimonial :=
  db.filter (fun t => t.isApproved)

/-- `updateOne({_id}, {$set:{isApproved:true}})` on the first matching
document; the second component is `modifiedCount > 0`, which MongoDB
reports only when the document actually changed. -/
def setApprovedFirst : List Testimonial → String → List Testimonial × Bool
  | [], _ => ([], false)
  | t :: ts, id =>
    if t._id == id then ({ t with isApproved := true } :: ts, !t.isApproved)
    else
      let r := setApprovedFirst ts id
      (t :: r.1, r.2)

/-- `MongoStorage.approveTestimonial` (storage.ts:349-356):
`new ObjectId(id)` may throw; otherwise flip the flag and report
whether a document was modified. -/
def approveTestimonial (db : List Testimonial) (id : String) :
    Except String (List Testimonial × Bool) :=
  if isValidObjectId id then Except.ok (setApprovedFirst db id)
  else Except.error "BSONError: input must be a 24 character hex string"

/-- `POST /api/admin/testimonials/:id/approve` (routes file, lines
318-330): 200 on success, 404 when the storage call reports `false`,
500 when it throws. -/
def approveTestimonialRouteStatus (db : List Testimonial) (id : String) : Nat :=
  match approveTestimonial db id with
  | Except.ok (_, true) => 200
  | Except.ok (_, false) => 404
  | Except.error _ => 500

/-- A stored `ContactMessage` document (schema.ts, interface
`ContactMessage`). -/
structure ContactMessage where
  _id : String
  name : String
  email : String
  phone : Option String
  subject : String
  message : String
  createdAt : Nat
  isRead : Bool
deriving DecidableEq, Repr

/-- `updateOne({_id}, {$set:{isRead:true}})` on the first matching
document, reporting `modifiedCount > 0`. -/
def setReadFirst : List ContactMessage → String → List ContactMessage × Bool
  | [], _ => ([], false)
  | m :: ms, id =>
    if m._id == id then ({ m with isRead := true } :: ms, !m.isRead)
    else
      let r := setReadFirst ms id
      (m :: r.1, r.2)

/-- `MongoStorage.markContactMessageAsRead` (storage.ts:318-325). -/
def markContactMessageAsRead (db : List ContactMessage) (id : String) :
    Except String (List ContactMessage × Bool) :=
  if isValidObjectId id then Except.ok (setReadFirst db id)
  else Except.error "BSONError: input must be a 24 character hex string"

/-- `POST /api/contact/:id/read` (routes file, lines 272-284): 200 on
success, 404 when the storage call reports `false`, 500 when it
throws. -/
def markReadRouteStatus (db : List ContactMessage) (id : String) : Nat :=
  match markContactMessageAsRead db id with
  | Except.ok (_, true) => 200
  | Except.ok (_, false) => 404
  | Except.error _ => 500

/-- A BSON-like value, as far as the entities in scope need (string
arrays cover the `features` and `images` fields). -/
inductive BsonValue where
  | str : String → BsonValue
  | num : Int → BsonValue
  | boolean : Bool → BsonValue
  | strList : List String → BsonValue
deriving DecidableEq, Repr

/-- A stored document, viewed as MongoDB views it for update purposes:
a finite association of field names to values, earlier entry wins. -/
def Document : Type := List (String × BsonValue)

instance : DecidableEq Document := by
  unfold Document
  infer_instance

/-- Field access on a document. -/
def docGet : Document → String → Option BsonValue
  | [], _ => none
  | (k, v) :: d, key => if k == key then some v else docGet d key

/-- Write one field: replace it in place when present, append it when
missing (MongoDB `$set` on a single path). -/
def docSet : Document → String → BsonValue → Document
  | [], key, v => [(key, v)]
  | (k, w) :: d, key, v =>
    if k == key then (key, v) :: d else (k, w) :: docSet d key v

/-- `{ $set: upd }`: write every field of the update document into the
stored document, leaving every other field alone. -/
def applySet (doc : Document) (upd : Document) : Document :=
  upd.foldl (fun acc kv => docSet acc kv.1 kv.2) doc

/-- The keys of an update document.  A JavaScript object — in
particular the `Partial<InsertProperty>` produced by
`insertPropertySchema.partial().parse` — has pairwise-distinct keys. -/
def docKeys (d : Document) : List String := d.map (fun kv => kv.1)

/-- `findOneAndUpdate({_id}, {$set: upd}, {returnDocument: 'after'})`:
update the first document whose `_id` field holds the given id string
and return the post-update document, or `none` when nothing matches. -/
def findOneAndUpdateById : List Document → String → Document → List Document × Option Document
  | [], _, _ => ([], none)
  | d :: ds, id, upd =>
    if docGet d "_id" = some (BsonValue.str id) then
      (applySet d upd :: ds, some (applySet d upd))
    else
      let r := findOneAndUpdateById ds id upd
      (d :: r.1, r.2)

/-- `MongoStorage.updateProperty` (storage.ts:241-249):
`new ObjectId(id)` may throw; otherwise `findOneAndUpdate` with
`$set: updateData` returns the updated document or `undefined`. -/
def updateProperty (db : List Document) (id : String) (upd : Document) :
    Except String (List Document × Option Document) :=
  if isValidObjectId id then Except.ok (findOneAndUpdateById db id upd)
  else Except.error "BSONError: input must be a 24 character hex string"

/-- Reading the field just written by `docSet`. -/
theorem docGet_docSet_same (d : Document) (k : String) (v : BsonValue) :
    docGet (docSet d k v) k = some v := by
  induction d with
  | nil => simp [docSet, docGet]
  | cons kv rest ih =>
    obtain ⟨k0, w⟩ := kv
    by_cases h : k0 = k
    · subst h
      simp [docSet, docGet]
    · simp [docSet, docGet, h, ih]

/-- `docSet` leaves every other field untouched. -/
theorem docGet_docSet_other (d : Document) (k k2 : String) (v : BsonValue)
    (hne : k2 ≠ k) : docGet (docSet d k v) k2 = docGet d k2 := by
  induction d with
  | nil =>
    have : ¬(k = k2) := fun h => hne h.symm
    simp [docSet, docGet, this]
  | cons kv rest ih =>
    obtain ⟨k0, w⟩ := kv
    by_cases h : k0 = k
    · subst h
      have hne0 : ¬(k0 = k2) := fun he => hne he.symm
      simp [docSet, docGet, hne0]
    · by_cases h2 : k0 = k2
      · subst h2
        simp [docSet, docGet, h]
      · simp [docSet, docGet, h, h2, ih]

/-- A key outside a document's key list reads as absent. -/
theorem docGet_eq_none_of_not_mem (d : Document) (k : String)
    (h : k ∉ docKeys d) : docGet d k = none := by
  induction d with
  | nil => rfl
  | cons kv rest ih =>
    obtain ⟨k0, v0⟩ := kv
    have h0 : ¬(k0 = k) := by
      intro he
      exact h (by simp [docKeys, he])
    have hr : k ∉ docKeys rest := by
      intro hm
      exact h (by simp [docKeys] at hm ⊢; tauto)
    simp [docGet, h0, ih hr]

/-- `applySet` with a duplicate-free update document: a field named in
the update reads back as the update's value, any other field reads back
as the stored value. -/
theorem docGet_applySet (doc upd : Document) (hnd : (docKeys upd).Nodup) (k : String) :
    docGet (applySet doc upd) k =
      match docGet upd k with
      | some v => some v
      | none => docGet doc k := by
  induction upd generalizing doc with
  | nil => simp [applySet, docGet]
  | cons kv rest ih =>
    obtain ⟨k0, v0⟩ := kv
    have hnd0 : k0 ∉ docKeys rest ∧ (docKeys rest).Nodup := by
      simpa [docKeys] using hnd
    have hstep : applySet doc ((k0, v0) :: rest) = applySet (docSet doc k0 v0) rest := rfl
    rw [hstep, ih (docSet doc k0 v0) hnd0.2]
    by_cases h : k0 = k
    · subst h
      have hnone : docGet rest k0 = none := docGet_eq_none_of_not_mem rest k0 hnd0.1
      simp [docGet, hnone, docGet_docSet_same]
    · simp only [docGet, beq_iff_eq, h, if_false]
      cases hrest : docGet rest k with
      | some v => rfl
      | none => simp [docGet_docSet_other doc k0 k v0 (fun he => h he.symm)]

/-- A concrete stored property used to instantiate theorems. -/
def sampleProperty : Property :=
  { _id := "aaaaaaaaaaaaaaaaaaaaaaaa", title := "Villa", description := "desc",
    type := "villa", price := 2800000, currency := "SAR", isRental := false,
    rentalPeriod := none, city := "Riyadh", area := some "North",
    neighborhood := "Almalqa", address := "Olaya st", bedrooms := some 5,
    bathrooms := some 4, size := 450, features := none, images := ["img1"],
    status := "available", createdAt := 100, propertyCode := "SA-12345",
    latitude := none, longitude := none }

/-- A concrete stored property with no `bedrooms` field. -/
def samplePropertyNoBedrooms : Property :=
  { sampleProperty with
    _id := "bbbbbbbbbbbbbbbbbbbbbbbb", bedrooms := none,
    propertyCode := "SA-12346", createdAt := 50 }

/-- C1: a filter carrying only `minPrice` and/or `maxPrice` selects
exactly the stored properties whose price satisfies every present
bound; an absent bound imposes nothing, and with both bounds absent the
price is unconstrained. -/
theorem searchProperties_price_bounds (db : List Property) (mp mq : Option Int)
    (p : Property) :
    p ∈ searchProperties db { minPrice := mp, maxPrice := mq } ↔
      p ∈ db ∧ (∀ x, mp = some x → x ≤ p.price) ∧ (∀ y, mq = some y → p.price ≤ y) := by
  rw [mem_searchProperties]
  have hm : matchesSearch { minPrice := mp, maxPrice := mq } p =
      rangeClause mp mq p.price := by
    simp [matchesSearch, strFieldClause, isRentalClause, bedroomsClause, rangeClause]
  rw [hm]
  cases mp <;> cases mq <;> simp [rangeClause]

/-- C2: the empty filter matches the whole collection (the result is a
permutation of it), and every search result — for any filter — is in
`createdAt`-descending (newest-first) order. -/
theorem searchProperties_empty_all_and_sorted (db : List Property) :
    List.Perm (searchProperties db {}) db ∧
      ∀ s : PropertySearch, (searchProperties db s).Pairwise NewestFirst := by
  constructor
  · have hall : db.filter (matchesSearch {}) = db := by
      apply List.filter_eq_self.mpr
      intro a _
      rfl
    unfold searchProperties
    rw [hall]
    exact perm_sortByCreatedAtDesc db
  · intro s
    exact pairwise_sortByCreatedAtDesc _

/-- C3 (amended: the filter value `bedrooms = 0` is falsy and disables
the clause, so the characterization holds for nonzero requested
values): a filter carrying only `bedrooms = n`, `n ≠ 0`, selects
exactly the stored properties that have a `bedrooms` value and whose
value is at least `n` — at-least semantics, not exact match. -/
theorem searchProperties_bedrooms_atLeast (db : List Property) (n : Int) (p : Property)
    (hn : n ≠ 0) :
    p ∈ searchProperties db { bedrooms := some n } ↔
      p ∈ db ∧ ∃ b, p.bedrooms = some b ∧ n ≤ b := by
  rw [mem_searchProperties]
  have hm : matchesSearch { bedrooms := some n } p =
      bedroomsClause (some n) p.bedrooms := by
    simp [matchesSearch, strFieldClause, isRentalClause, rangeClause]
  rw [hm]
  have hnb : (n != 0) = true := by
    simpa using hn
  cases hb : p.bedrooms with
  | none => simp [bedroomsClause, hnb, hb]
  | some b => simp [bedroomsClause, hnb, hb]

/-- Witness for C3 at `n = 2` against a one-property collection. -/
theorem searchProperties_bedrooms_atLeast_witness :
    sampleProperty ∈ searchProperties [sampleProperty] { bedrooms := some 2 } ↔
      sampleProperty ∈ [sampleProperty] ∧
        ∃ b, sampleProperty.bedrooms = some b ∧ (2 : Int) ≤ b :=
  searchProperties_bedrooms_atLeast [sampleProperty] 2 sampleProperty (by decide)

/-- Counterexample to C3 as stated: with `bedrooms = 0` present in the
filter, a stored property that has no `bedrooms` value at all is
returned, although its (nonexistent) bedrooms value is not `≥ 0`; the
code treats the falsy value `0` as "no constraint". -/
theorem searchProperties_bedrooms_zero_cex :
    samplePropertyNoBedrooms ∈
        searchProperties [samplePropertyNoBedrooms] { bedrooms := some 0 } ∧
      ¬∃ b, samplePropertyNoBedrooms.bedrooms = some b ∧ (0 : Int) ≤ b := by
  constructor
  · simp [searchProperties, sortByCreatedAtDesc, insertDesc, List.filter,
      matchesSearch, strFieldClause, isRentalClause, rangeClause, bedroomsClause,
      samplePropertyNoBedrooms, sampleProperty]
  · simp [samplePropertyNoBedrooms, sampleProperty]

/-- C10: each of the falsy filter values — `bedrooms = 0` and the empty
string for `city`, `area`, `neighborhood`, `type` — leaves the search
result identical to the one for a filter with that field absent; in
particular the `bedrooms = 0` clause is dropped entirely, so it also
matches documents with no `bedrooms` value. -/
theorem searchProperties_falsy_is_absent (db : List Property) (s : PropertySearch) :
    searchProperties db { s with bedrooms := some 0 } =
        searchProperties db { s with bedrooms := none } ∧
      searchProperties db { s with city := some "" } =
        searchProperties db { s with city := none } ∧
      searchProperties db { s with area := some "" } =
        searchProperties db { s with area := none } ∧
      searchProperties db { s with neighborhood := some "" } =
        searchProperties db { s with neighborhood := none } ∧
      searchProperties db { s with type := some "" } =
        searchProperties db { s with type := none } ∧
      ∀ p : Property, bedroomsClause (some 0) p.bedrooms = true := by
  refine ⟨?_, ?_, ?_, ?_, ?_, ?_⟩
  · have h : matchesSearch { s with bedrooms := some 0 } =
        matchesSearch { s with bedrooms := none } := funext fun p => rfl
    unfold searchProperties
    rw [h]
  · have h : matchesSearch { s with city := some "" } =
        matchesSearch { s with city := none } := funext fun p => rfl
    unfold searchProperties
    rw [h]
  · have h : matchesSearch { s with area := some "" } =
        matchesSearch { s with area := none } := funext fun p => rfl
    unfold searchProperties
    rw [h]
  · have h : matchesSearch { s with neighborhood := some "" } =
        matchesSearch { s with neighborhood := none } := funext fun p => rfl
    unfold searchProperties
    rw [h]
  · have h : matchesSearch { s with type := some "" } =
        matchesSearch { s with type := none } := funext fun p => rfl
    unfold searchProperties
    rw [h]
  · intro p
    rfl

/-- C4 (amended: the absence marker covers only the not-found case; a
syntactically invalid id makes `new ObjectId(id)` throw, which the
route surfaces as an error (500), so the two cases are
distinguishable): for a valid ObjectId string matching no stored
document, `getProperty` returns the absence marker; for a malformed id
it returns the thrown driver error. -/
theorem getProperty_absent_or_throw (db : List Property) (id : String) :
    (isValidObjectId id = false →
      getProperty db id =
        Except.error "BSONError: input must be a 24 character hex string") ∧
    (isValidObjectId id = true → (∀ p ∈ db, p._id ≠ id) →
      getProperty db id = Except.ok none) := by
  constructor
  · intro h
    simp [getProperty, h]
  · intro h hnone
    simp only [getProperty, h, if_true]
    have : db.find? (fun p => p._id == id) = none := by
      apply List.find?_eq_none.mpr
      intro p hp
      simpa using hnone p hp
    rw [this]

/-- Witness for C4: a malformed id errors, a well-formed unknown id
yields the absence marker. -/
theorem getProperty_absent_or_throw_witness :
    (getProperty [sampleProperty] "xyz" =
        Except.error "BSONError: input must be a 24 character hex string") ∧
      getProperty [sampleProperty] "cccccccccccccccccccccccc" = Except.ok none :=
  ⟨(getProperty_absent_or_throw [sampleProperty] "xyz").1 (by decide),
   (getProperty_absent_or_throw [sampleProperty] "cccccccccccccccccccccccc").2
     (by decide) (by decide)⟩

/-- Counterexample to C4 as stated: on the syntactically invalid id
`"xyz"` the read does not return the absence marker — it surfaces the
`ObjectId` constructor's exception. -/
theorem getProperty_invalid_id_cex :
    getProperty ([] : List Property) "xyz" ≠ Except.ok none ∧
      getProperty ([] : List Property) "xyz" =
        Except.error "BSONError: input must be a 24 character hex string" := by
  refine ⟨?_, rfl⟩
  intro h
  rw [show getProperty ([] : List Property) "xyz" =
      Except.error "BSONError: input must be a 24 character hex string" from rfl] at h
  exact Except.noConfusion h

/-- A creation body that is valid except that `propertyCode` is
entirely absent. -/
def sampleRawNoCode : RawProperty :=
  { title := some "Villa", description := some "desc", type := some "villa",
    price := some 2800000, city := some "Riyadh", neighborhood := some "Almalqa",
    address := some "Olaya st", size := some 450, images := some ["img1"] }

/-- The same body with `propertyCode` supplied as the empty string. -/
def sampleRawEmptyCode : RawProperty :=
  { sampleRawNoCode with propertyCode := some "" }

/-- The normalized value `insertPropertySchema.parse` yields for
`sampleRawEmptyCode`. -/
def sampleInsertEmptyCode : InsertProperty :=
  { title := "Villa", description := "desc", type := "villa", price := 2800000,
    currency := "SAR", isRental := false, rentalPeriod := none, city := "Riyadh",
    area := none, neighborhood := "Almalqa", address := "Olaya st",
    bedrooms := none, bathrooms := none, size := 450, features := none,
    images := ["img1"], status := "available", propertyCode := "",
    latitude := none, longitude := none }

/-- C5 (amended: the code generator only ever sees bodies that passed
`insertPropertySchema`, whose `propertyCode` is a required string, so
"caller did not supply one" can only mean the falsy empty string): when
the validated body carries `propertyCode = ""`, the handler succeeds
and stores a generated code `SA-` followed by a 5-digit number. -/
theorem postPropertyHandler_generates_code (r : RawProperty) (rand : Nat)
    (v : InsertProperty) (h : parseInsertProperty r = Except.ok v)
    (hc : v.propertyCode = "") :
    ∃ k, 10000 ≤ k ∧ k ≤ 99999 ∧
      postPropertyHandler r rand =
        Except.ok { v with propertyCode := "SA-" ++ toString k } := by
  refine ⟨10000 + rand % 90000, Nat.le_add_right _ _, ?_, ?_⟩
  · have : rand % 90000 < 90000 := Nat.mod_lt rand (by decide)
    omega
  · simp [postPropertyHandler, h, hc, genPropertyCode]

/-- Witness for C5: the sample body with empty `propertyCode` and seed
7 succeeds with a generated code. -/
theorem postPropertyHandler_generates_code_witness :
    ∃ k, 10000 ≤ k ∧ k ≤ 99999 ∧
      postPropertyHandler sampleRawEmptyCode 7 =
        Except.ok { sampleInsertEmptyCode with propertyCode := "SA-" ++ toString k } :=
  postPropertyHandler_generates_code sampleRawEmptyCode 7 sampleInsertEmptyCode
    (by rfl) (by rfl)

/-- Counterexample to C5 as stated: a body that omits `propertyCode`
(and is otherwise valid) is rejected by `insertPropertySchema` with
Zod's `Required` error — the handler answers 400 and the
code-generating branch is never reached. -/
theorem postPropertyHandler_missing_code_cex :
    postPropertyHandler sampleRawNoCode 0 = Except.error "Required" ∧
      parseInsertProperty sampleRawNoCode = Except.error "Required" := by
  constructor
  · rfl
  · rfl

/-- `updateOne` on an appended fresh document: no earlier document
matches, so the new one is updated and `modifiedCount` reflects its
previous flag. -/
theorem setApprovedFirst_append_fresh (db : List Testimonial) (nt : Testimonial)
    (id : String) (hfresh : ∀ u ∈ db, u._id ≠ id) (hid : nt._id = id) :
    setApprovedFirst (db ++ [nt]) id =
      (db ++ [{ nt with isApproved := true }], !nt.isApproved) := by
  induction db with
  | nil => simp [setApprovedFirst, hid]
  | cons u us ih =>
    have hu : (u._id == id) = false := by
      simpa using hfresh u (by simp)
    simp only [List.cons_append, setApprovedFirst, hu, Bool.false_eq_true, if_false,
      List.append_eq]
    rw [ih (fun x hx => hfresh x (by simp [hx]))]

/-- A validated public testimonial submission. -/
def sampleInsertTestimonial : InsertTestimonial :=
  { name := "Mohammed", location := "Riyadh", message := "Great service", rating := 5 }

/-- C6: a testimonial created through `createTestimonial` is stored
with `isApproved = false` (the storage layer overrides anything the
caller might have sent — the insert schema has no approval key at all),
it is invisible to `getApprovedTestimonials`, and it becomes visible
there exactly once `approveTestimonial` touches it. -/
theorem testimonial_lifecycle (db : List Testimonial) (t : InsertTestimonial)
    (newId : String) (now : Nat) (hval : isValidObjectId newId = true)
    (hfresh : ∀ u ∈ db, u._id ≠ newId) :
    (createTestimonial db t newId now).2.isApproved = false ∧
      (createTestimonial db t newId now).2 ∉
        getApprovedTestimonials (createTestimonial db t newId now).1 ∧
      ∃ db2,
        approveTestimonial (createTestimonial db t newId now).1 newId =
            Except.ok (db2, true) ∧
          { (createTestimonial db t newId now).2 with isApproved := true } ∈
            getApprovedTestimonials db2 := by
  refine ⟨rfl, ?_, ?_⟩
  · intro hmem
    have := (List.mem_filter.mp hmem).2
    simp [createTestimonial] at this
  · refine ⟨db ++ [{ (createTestimonial db t newId now).2 with isApproved := true }], ?_, ?_⟩
    · simp only [approveTestimonial, hval, if_true]
      rw [show (createTestimonial db t newId now).1 =
            db ++ [(createTestimonial db t newId now).2] from rfl]
      rw [setApprovedFirst_append_fresh db _ newId hfresh rfl]
      rfl
    · apply List.mem_filter.mpr
      exact ⟨by simp, rfl⟩

/-- Witness for C6 on an empty collection. -/
theorem testimonial_lifecycle_witness :
    (createTestimonial [] sampleInsertTestimonial "cccccccccccccccccccccccc" 5).2.isApproved
        = false ∧
      (createTestimonial [] sampleInsertTestimonial "cccccccccccccccccccccccc" 5).2 ∉
        getApprovedTestimonials
          (createTestimonial [] sampleInsertTestimonial "cccccccccccccccccccccccc" 5).1 ∧
      ∃ db2,
        approveTestimonial
            (createTestimonial [] sampleInsertTestimonial "cccccccccccccccccccccccc" 5).1
            "cccccccccccccccccccccccc" = Except.ok (db2, true) ∧
          { (createTestimonial [] sampleInsertTestimonial "cccccccccccccccccccccccc" 5).2 with
            isApproved := true } ∈ getApprovedTestimonials db2 :=
  testimonial_lifecycle [] sampleInsertTestimonial "cccccccccccccccccccccccc" 5
    (by decide) (by simp)

/-- `findOneAndUpdate` hits the first matching document and rebuilds
the collection around it. -/
theorem findOneAndUpdateById_split (pre post : List Document) (doc upd : Document)
    (id : String) (hdoc : docGet doc "_id" = some (BsonValue.str id))
    (hpre : ∀ d ∈ pre, docGet d "_id" ≠ some (BsonValue.str id)) :
    findOneAndUpdateById (pre ++ doc :: post) id upd =
      (pre ++ applySet doc upd :: post, some (applySet doc upd)) := by
  induction pre with
  | nil => simp [findOneAndUpdateById, hdoc]
  | cons d ds ih =>
    have hd : ¬docGet d "_id" = some (BsonValue.str id) := hpre d (by simp)
    simp only [List.cons_append, findOneAndUpdateById, hd, if_false, List.append_eq]
    rw [ih (fun x hx => hpre x (by simp [hx]))]

/-- A stored property, viewed as the document MongoDB updates. -/
def samplePropertyDoc : Document :=
  [("_id", BsonValue.str "ffffffffffffffffffffffff"),
   ("title", BsonValue.str "Villa"),
   ("price", BsonValue.num 2800000),
   ("status", BsonValue.str "available"),
   ("images", BsonValue.strList ["img1"])]

/-- A partial update touching `price` and `status` only. -/
def sampleUpdateDoc : Document :=
  [("price", BsonValue.num 3000000), ("status", BsonValue.str "sold")]

/-- C7: `updateProperty` runs `$set` with exactly the provided fields:
on the stored document every field named in the update reads back as
the update's value, every other field reads back unchanged, and the
rest of the collection is untouched — merge semantics, not
replacement. -/
theorem updateProperty_merges (pre post : List Document) (doc upd : Document)
    (id : String) (hval : isValidObjectId id = true)
    (hdoc : docGet doc "_id" = some (BsonValue.str id))
    (hpre : ∀ d ∈ pre, docGet d "_id" ≠ some (BsonValue.str id))
    (hnd : (docKeys upd).Nodup) :
    updateProperty (pre ++ doc :: post) id upd =
        Except.ok (pre ++ applySet doc upd :: post, some (applySet doc upd)) ∧
      (∀ k v, docGet upd k = some v → docGet (applySet doc upd) k = some v) ∧
      (∀ k, docGet upd k = none → docGet (applySet doc upd) k = docGet doc k) := by
  refine ⟨?_, ?_, ?_⟩
  · simp only [updateProperty, hval, if_true]
    rw [findOneAndUpdateById_split pre post doc upd id hdoc hpre]
  · intro k v hk
    rw [docGet_applySet doc upd hnd k, hk]
  · intro k hk
    rw [docGet_applySet doc upd hnd k, hk]

/-- Witness for C7: updating price and status of a one-document
collection keeps the untouched fields. -/
theorem updateProperty_merges_witness :
    updateProperty [samplePropertyDoc] "ffffffffffffffffffffffff" sampleUpdateDoc =
        Except.ok ([applySet samplePropertyDoc sampleUpdateDoc],
          some (applySet samplePropertyDoc sampleUpdateDoc)) ∧
      (∀ k v, docGet sampleUpdateDoc k = some v →
        docGet (applySet samplePropertyDoc sampleUpdateDoc) k = some v) ∧
      (∀ k, docGet sampleUpdateDoc k = none →
        docGet (applySet samplePropertyDoc sampleUpdateDoc) k =
          docGet samplePropertyDoc k) :=
  updateProperty_merges [] [] samplePropertyDoc sampleUpdateDoc
    "ffffffffffffffffffffffff" (by decide) (by decide) (by simp) (by decide)

/-- Destructing a successful monadic `Except` bind. -/
theorem except_bindm_ok {α β : Type} {x : Except String α} {f : α → Except String β}
    {v : β} : (x >>= f) = Except.ok v ↔ ∃ a, x = Except.ok a ∧ f a = Except.ok v := by
  cases x with
  | error e => simp [Bind.bind, Except.bind]
  | ok a => simp [Bind.bind, Except.bind]

/-- A valid user-creation body with `role` omitted. -/
def sampleRawUser : RawUser :=
  { username := some "aqarpanel", password := some "Mm345x",
    name := some "Admin", email := some "admin@altakhim.com" }

/-- C8: whenever validation succeeds, every field omitted from the
request body comes back defaulted in the normalized value:
`currency = "SAR"`, `isRental = false`, `status = "available"` on
properties and `role = "user"` on users. -/
theorem schema_defaults (rp : RawProperty) (vp : InsertProperty)
    (ru : RawUser) (vu : InsertUser)
    (hp : parseInsertProperty rp = Except.ok vp)
    (hcur : rp.currency = none) (hrent : rp.isRental = none) (hstat : rp.status = none)
    (hu : parseInsertUser ru = Except.ok vu) (hrole : ru.role = none) :
    vp.currency = "SAR" ∧ vp.isRental = false ∧ vp.status = "available" ∧
      vu.role = "user" := by
  rw [parseInsertProperty] at hp
  simp only [except_bindm_ok] at hp
  obtain ⟨t, _, d, _, ty, _, pr, _, ci, _, nb, _, ad, _, sz, _, im, _, pc, _, hfin⟩ := hp
  rw [parseInsertUser] at hu
  simp only [except_bindm_ok] at hu
  obtain ⟨un, _, pw, _, nm, _, em, _, hufin⟩ := hu
  have hvp := (Except.ok.injEq _ _).mp hfin.symm
  have hvu := (Except.ok.injEq _ _).mp hufin.symm
  subst hvp
  subst hvu
  simp [hcur, hrent, hstat, hrole]

/-- Witness for C8 at concrete property and user bodies omitting the
defaulted fields. -/
theorem schema_defaults_witness :
    sampleInsertEmptyCode.currency = "SAR" ∧ sampleInsertEmptyCode.isRental = false ∧
      sampleInsertEmptyCode.status = "available" ∧
      (InsertUser.mk "aqarpanel" "Mm345x" "Admin" "user" "admin@altakhim.com" none).role
        = "user" :=
  schema_defaults sampleRawEmptyCode sampleInsertEmptyCode sampleRawUser
    (InsertUser.mk "aqarpanel" "Mm345x" "Admin" "user" "admin@altakhim.com" none)
    (by rfl) (by rfl) (by rfl) (by rfl) (by rfl) (by rfl)

/-- `updateOne {$set:{isRead:true}}` modifies nothing when every
matching message is already read. -/
theorem setReadFirst_snd_false (db : List ContactMessage) (id : String)
    (hall : ∀ m ∈ db, m._id = id → m.isRead = true) :
    (setReadFirst db id).2 = false := by
  induction db with
  | nil => rfl
  | cons m ms ih =>
    by_cases hm : m._id = id
    · simp [setReadFirst, hm, hall m (by simp) hm]
    · have hm' : (m._id == id) = false := by simpa using hm
      simp only [setReadFirst, hm', Bool.false_eq_true, if_false]
      exact ih (fun x hx hxi => hall x (by simp [hx]) hxi)

/-- `updateOne {$set:{isApproved:true}}` modifies nothing when every
matching testimonial is already approved. -/
theorem setApprovedFirst_snd_false (db : List Testimonial) (id : String)
    (hall : ∀ t ∈ db, t._id = id → t.isApproved = true) :
    (setApprovedFirst db id).2 = false := by
  induction db with
  | nil => rfl
  | cons t ts ih =>
    by_cases ht : t._id = id
    · simp [setApprovedFirst, ht, hall t (by simp) ht]
    · have ht' : (t._id == id) = false := by simpa using ht
      simp only [setApprovedFirst, ht', Bool.false_eq_true, if_false]
      exact ih (fun x hx hxi => hall x (by simp [hx]) hxi)

/-- A stored contact message already marked read. -/
def sampleReadMessage : ContactMessage :=
  { _id := "eeeeeeeeeeeeeeeeeeeeeeee", name := "Ali", email := "ali@mail.com",
    phone := none, subject := "Question", message := "Hello", createdAt := 20,
    isRead := true }

/-- A stored testimonial already approved. -/
def sampleApprovedTestimonial : Testimonial :=
  { _id := "dddddddddddddddddddddddd", name := "Sara", location := "Jeddah",
    message := "Nice", rating := 4, createdAt := 10, isApproved := true }

/-- C9: `markContactMessageAsRead` and `approveTestimonial` report
`true` only when the document actually changed: on an existing document
whose flag is already set they report `false`, and the corresponding
routes answer 404 despite the document's existence. -/
theorem repeated_flag_write_reports_false (dbc : List ContactMessage)
    (dbt : List Testimonial) (idc idt : String)
    (hvc : isValidObjectId idc = true) (_hexc : ∃ m ∈ dbc, m._id = idc)
    (hallc : ∀ m ∈ dbc, m._id = idc → m.isRead = true)
    (hvt : isValidObjectId idt = true) (_hext : ∃ t ∈ dbt, t._id = idt)
    (hallt : ∀ t ∈ dbt, t._id = idt → t.isApproved = true) :
    (∃ db2, markContactMessageAsRead dbc idc = Except.ok (db2, false)) ∧
      markReadRouteStatus dbc idc = 404 ∧
      (∃ db2, approveTestimonial dbt idt = Except.ok (db2, false)) ∧
      approveTestimonialRouteStatus dbt idt = 404 := by
  have hc2 : (setReadFirst dbc idc).2 = false := setReadFirst_snd_false dbc idc hallc
  have ht2 : (setApprovedFirst dbt idt).2 = false := setApprovedFirst_snd_false dbt idt hallt
  have hmc : markContactMessageAsRead dbc idc =
      Except.ok ((setReadFirst dbc idc).1, false) := by
    simp only [markContactMessageAsRead, hvc, if_true]
    rw [show setReadFirst dbc idc = ((setReadFirst dbc idc).1, (setReadFirst dbc idc).2)
        from rfl, hc2]
  have hmt : approveTestimonial dbt idt =
      Except.ok ((setApprovedFirst dbt idt).1, false) := by
    simp only [approveTestimonial, hvt, if_true]
    rw [show setApprovedFirst dbt idt =
        ((setApprovedFirst dbt idt).1, (setApprovedFirst dbt idt).2) from rfl, ht2]
  refine ⟨⟨_, hmc⟩, ?_, ⟨_, hmt⟩, ?_⟩
  · rw [markReadRouteStatus, hmc]
  · rw [approveTestimonialRouteStatus, hmt]

/-- Witness for C9 on one-document collections whose flags are already
set. -/
theorem repeated_flag_write_reports_false_witness :
    (∃ db2, markContactMessageAsRead [sampleReadMessage] "eeeeeeeeeeeeeeeeeeeeeeee" =
        Except.ok (db2, false)) ∧
      markReadRouteStatus [sampleReadMessage] "eeeeeeeeeeeeeeeeeeeeeeee" = 404 ∧
      (∃ db2, approveTestimonial [sampleApprovedTestimonial]
          "dddddddddddddddddddddddd" = Except.ok (db2, false)) ∧
      approveTestimonialRouteStatus [sampleApprovedTestimonial]
        "dddddddddddddddddddddddd" = 404 :=
  repeated_flag_write_reports_false [sampleReadMessage] [sampleApprovedTestimonial]
    "eeeeeeeeeeeeeeeeeeeeeeee" "dddddddddddddddddddddddd"
    (by decide) ⟨sampleReadMessage, by simp, rfl⟩ (by decide)
    (by decide) ⟨sampleApprovedTestimonial, by simp, rfl⟩ (by decide)

end Aqar
